import Mathlib

/-!
Verification of the MicroSense Mini 3 core: a shallow embedding of the
repository's core logic.

* `AlphaEye` fusion algorithm (`src/js/avatar.js`): the 10-parameter
  psychometric profile and its derived indices.
* `OllamaClient.chat` streaming line protocol (`src/js/ollama.js`).
* Scan-session state machine (`src/unnamed/part_000` `startScan` /
  `stopScan` / `completeScan` / `saveHistory`, and `triggerScan` from
  `src/js/ollama.js`).

JavaScript numbers are modelled as exact rationals `ℚ`; the transcendental
functions `Math.exp` / `Math.sqrt` are modelled by `Real.exp` / `Real.sqrt`.
`Math.round` is round-half-up, which coincides with Mathlib's `round`
(`round x = ⌊x + 1/2⌋`).
-/

namespace MS3

/-- JS `x || d` for an optional numeric property `x`: the default `d` is
used when the property is absent (`undefined`) or its value is falsy
(the number `0`). Models expressions such as `m.aggression || 30` in
`AlphaEye.compute` (`src/js/avatar.js:584`). -/
def jsOr (v : Option ℚ) (d : ℚ) : ℚ :=
  match v with
  | none => d
  | some x => if x = 0 then d else x

/-- Model of `AlphaEye.clamp` (`src/js/avatar.js:639-641`):
`Math.max(0, Math.min(100, Math.round(v)))`. -/
def clamp (v : ℚ) : ℤ :=
  max 0 (min 100 (round v))

/-- Metrics object of a `ThreatEngine.fullAnalysis` result; every numeric
field may be absent. -/
structure ThreatMetrics where
  aggression : Option ℚ := none
  stress : Option ℚ := none
  tension : Option ℚ := none
  badIntent : Option ℚ := none
  stability : Option ℚ := none

/-- Model of `ThreatEngine.fullAnalysis` result: `threat?.metrics || {}`. -/
structure ThreatRes where
  metrics : Option ThreatMetrics := none

/-- Model of `DeceptionEngine.fullAnalysis` result. -/
structure DeceptionRes where
  truthfulnessIndex : Option ℚ := none
  deceptionProbability : Option ℚ := none
  microExpressions : Option (List String) := none
  deceptionTimeline : Option (List String) := none

/-- Biometrics object of a `NeuroAnalyzer.analyze` result. -/
structure Biometrics where
  expressionRange : Option ℚ := none
  psychomotorIndex : Option ℚ := none
  gazeStability : Option ℚ := none
  microTremorScore : Option ℚ := none

/-- Model of `NeuroAnalyzer.analyze` result: `neuro?.biometrics || {}`. -/
structure NeuroRes where
  biometrics : Option Biometrics := none
  conditions : Option (List String) := none

/-- Model of `VoiceStressEngine.fullAnalysis` result. -/
structure VsaRes where
  voiceStressScore : Option ℚ := none

/-- The ten primary AlphaEye parameters (`params` object built in
`AlphaEye.compute`, `src/js/avatar.js:598-609`). -/
structure Params where
  aggression : ℤ
  stress : ℤ
  tension : ℤ
  suspect : ℤ
  balance : ℤ
  charm : ℤ
  energy : ℤ
  selfRegulation : ℤ
  inhibition : ℤ
  neuroticism : ℤ
deriving DecidableEq, Repr

/-- Read a field of `threat?.metrics || {}`. -/
def mfield (threat : Option ThreatRes) (sel : ThreatMetrics → Option ℚ) : Option ℚ :=
  (threat.bind (·.metrics)).bind sel

/-- Read a field of `neuro?.biometrics || {}`. -/
def bfield (neuro : Option NeuroRes) (sel : Biometrics → Option ℚ) : Option ℚ :=
  (neuro.bind (·.biometrics)).bind sel

/-- Read a field of `dec = deception || {}`. -/
def dfield (deception : Option DeceptionRes) (sel : DeceptionRes → Option ℚ) : Option ℚ :=
  deception.bind sel

/-- Line `src/js/avatar.js:584`: `const aggression = AlphaEye.clamp(m.aggression || 30)`. -/
def aggressionOf (threat : Option ThreatRes) : ℤ :=
  clamp (jsOr (mfield threat (·.aggression)) 30)

/-- Line `src/js/avatar.js:585`: `const stress = AlphaEye.clamp(m.stress || 25)`. -/
def stressOf (threat : Option ThreatRes) : ℤ :=
  clamp (jsOr (mfield threat (·.stress)) 25)

/-- Line `src/js/avatar.js:586`: `const tension = AlphaEye.clamp(m.tension || 20)`. -/
def tensionOf (threat : Option ThreatRes) : ℤ :=
  clamp (jsOr (mfield threat (·.tension)) 20)

/-- Line `src/js/avatar.js:587`: `const suspect = AlphaEye.clamp(m.badIntent || 25)`. -/
def suspectOf (threat : Option ThreatRes) : ℤ :=
  clamp (jsOr (mfield threat (·.badIntent)) 25)

/-- Line `src/js/avatar.js:588`: `const balance = AlphaEye.clamp(m.stability || 60)`. -/
def balanceOf (threat : Option ThreatRes) : ℤ :=
  clamp (jsOr (mfield threat (·.stability)) 60)

/-- Line `src/js/avatar.js:589`: `expressionRange = AlphaEye.clamp(bio.expressionRange || 50)`. -/
def expressionRangeOf (neuro : Option NeuroRes) : ℤ :=
  clamp (jsOr (bfield neuro (·.expressionRange)) 50)

/-- Line `src/js/avatar.js:590`: `truthfulness = AlphaEye.clamp(dec.truthfulnessIndex || 70)`. -/
def truthfulnessOf (deception : Option DeceptionRes) : ℤ :=
  clamp (jsOr (dfield deception (·.truthfulnessIndex)) 70)

/-- Line `src/js/avatar.js:591`:
`charm = AlphaEye.clamp(Math.round(truthfulness * 0.6 + expressionRange * 0.4))`. -/
def charmOf (deception : Option DeceptionRes) (neuro : Option NeuroRes) : ℤ :=
  clamp ((round ((truthfulnessOf deception : ℚ) * 0.6
    + (expressionRangeOf neuro : ℚ) * 0.4) : ℤ) : ℚ)

/-- Line `src/js/avatar.js:592`: `energy = AlphaEye.clamp(bio.psychomotorIndex || 50)`. -/
def energyOf (neuro : Option NeuroRes) : ℤ :=
  clamp (jsOr (bfield neuro (·.psychomotorIndex)) 50)

/-- Line `src/js/avatar.js:593`:
`selfRegulation = AlphaEye.clamp(Math.round((balance + charm) / 2))`. -/
def selfRegulationOf (threat : Option ThreatRes) (deception : Option DeceptionRes)
    (neuro : Option NeuroRes) : ℤ :=
  clamp ((round (((balanceOf threat : ℚ) + (charmOf deception neuro : ℚ)) / 2) : ℤ) : ℚ)

/-- Line `src/js/avatar.js:594`: `gazeStability = AlphaEye.clamp(bio.gazeStability || 60)`. -/
def gazeStabilityOf (neuro : Option NeuroRes) : ℤ :=
  clamp (jsOr (bfield neuro (·.gazeStability)) 60)

/-- Line `src/js/avatar.js:595`: `inhibition = AlphaEye.clamp(Math.round(100 - gazeStability))`. -/
def inhibitionOf (neuro : Option NeuroRes) : ℤ :=
  clamp ((round ((100 : ℚ) - (gazeStabilityOf neuro : ℚ)) : ℤ) : ℚ)

/-- Line `src/js/avatar.js:596`: `neuroticism = AlphaEye.clamp(bio.microTremorScore || 20)`. -/
def neuroticismOf (neuro : Option NeuroRes) : ℤ :=
  clamp (jsOr (bfield neuro (·.microTremorScore)) 20)

/-- The ten primary parameters computed by `AlphaEye.compute`
(`src/js/avatar.js:584-609`). -/
def computeParams (threat : Option ThreatRes) (deception : Option DeceptionRes)
    (neuro : Option NeuroRes) : Params :=
  { aggression := aggressionOf threat, stress := stressOf threat,
    tension := tensionOf threat, suspect := suspectOf threat,
    balance := balanceOf threat, charm := charmOf deception neuro,
    energy := energyOf neuro,
    selfRegulation := selfRegulationOf threat deception neuro,
    inhibition := inhibitionOf neuro, neuroticism := neuroticismOf neuro }

/-- Result of `AlphaEye.computeEmotionalVariation` (`src/js/avatar.js:647-657`). -/
structure EmotionalVariation where
  score : ℤ
  label : String

/-- Model of `AlphaEye.computeEmotionalVariation` (`src/js/avatar.js:647-657`):
population standard deviation of the four negative parameters, doubled;
note the label thresholds use the *unclamped* rounded score. -/
noncomputable def computeEmotionalVariation (p : Params) : EmotionalVariation :=
  let neg : List ℚ := [(p.aggression : ℚ), (p.stress : ℚ), (p.tension : ℚ), (p.neuroticism : ℚ)]
  let avg := neg.sum / (neg.length : ℚ)
  let variance := (neg.map (fun b => (b - avg) ^ 2)).sum / (neg.length : ℚ)
  let stdDev := Real.sqrt (variance : ℝ)
  let score : ℤ := round (stdDev * 2)
  { score := clamp (score : ℚ),
    label := if score > 30 then "Unstable" else if score > 15 then "Moderate" else "Stable" }

/-- Model of `AlphaEye.computeVitality` (`src/js/avatar.js:663-668`). -/
noncomputable def computeVitality (energy stress neuroticism : ℤ) : ℤ :=
  let raw : ℚ := (energy : ℚ) - ((stress : ℚ) * 0.4 + (neuroticism : ℚ) * 0.3)
  let sigmoid : ℝ := 2 / (1 + Real.exp (-(raw : ℝ) / 20)) - 1
  round (sigmoid * 100)

/-- Model of `AlphaEye.computeConcentration` (`src/js/avatar.js:673-677`). -/
def computeConcentration (gazeStability inhibition stress : ℤ) : ℤ :=
  clamp ((round ((gazeStability : ℚ) * 0.5 + ((100 : ℚ) - (inhibition : ℚ)) * 0.3
    + ((100 : ℚ) - (stress : ℚ)) * 0.2) : ℤ) : ℚ)

/-- Result of `AlphaEye.classifyStateOfMind` (`src/js/avatar.js:683-693`). -/
structure StateOfMind where
  stability : ℤ
  pleasure : ℤ
  quadrant : String
deriving DecidableEq, Repr

/-- Model of `AlphaEye.classifyStateOfMind` (`src/js/avatar.js:683-693`). -/
def classifyStateOfMind (p : Params) : StateOfMind :=
  let stability := p.balance
  let pleasure : ℤ := round ((100 : ℚ) - ((p.stress : ℚ) + (p.tension : ℚ)) / 2)
  let quadrant :=
    if stability ≥ 50 ∧ pleasure ≥ 50 then "Calm & Content"
    else if stability < 50 ∧ pleasure ≥ 50 then "Excited & Active"
    else if stability ≥ 50 ∧ pleasure < 50 then "Bored & Low"
    else "Distressed & Anxious"
  { stability := stability, pleasure := pleasure, quadrant := quadrant }

/-- One entry of the candidate list built in `AlphaEye.getDominantState`
(`src/js/avatar.js:700-706`). -/
structure StateCand where
  key : String
  score : ℤ
deriving DecidableEq, Repr

/-- Stable insertion of `a` before the first element with a strictly
smaller score. Together with `sortDesc` this models
`states.sort((a, b) => b.score - a.score)` in `AlphaEye.getDominantState`
(`src/js/avatar.js:707`): `Array.prototype.sort` is stable and the
comparator orders by score descending, so an element inserted from the
original left goes before every later element whose score is `≤` its own. -/
def insertDesc (a : StateCand) : List StateCand → List StateCand
  | [] => [a]
  | b :: l => if a.score ≥ b.score then a :: b :: l else b :: insertDesc a l

/-- Stable descending sort by score; models the JS stable
`Array.prototype.sort` call in `AlphaEye.getDominantState`. -/
def sortDesc : List StateCand → List StateCand
  | [] => []
  | x :: xs => insertDesc x (sortDesc xs)

/-- Model of `AlphaEye.getDominantState` (`src/js/avatar.js:698-711`): sort the five
candidates by score descending (stable) and read `states[0]`; `"balanced"`
when the top score is below 40. The `none` branch is unreachable (the list
has five elements). -/
def getDominantState (p : Params) : String :=
  let states : List StateCand :=
    [ { key := "high-stress", score := p.stress },
      { key := "high-tension", score := p.tension },
      { key := "high-aggression", score := p.aggression },
      { key := "low-energy", score := 100 - p.energy },
      { key := "low-balance", score := 100 - p.balance } ]
  match (sortDesc states).head? with
  | none => "balanced"
  | some top => if top.score < 40 then "balanced" else top.key

/-- The AlphaEye profile returned by `AlphaEye.compute`
(`src/js/avatar.js:624-636`), `timestamp` excluded (it is `Date.now()`,
an input of the fused record in the state machine model below). -/
structure Profile where
  params : Params
  voiceStress : ℤ
  deceptionProb : ℤ
  conditions : List String
  microExpressions : List String
  deceptionTimeline : List String
  emotionalVariation : EmotionalVariation
  vitalityIndex : ℤ
  concentrationIndex : ℤ
  stateOfMind : StateOfMind

/-- Model of `AlphaEye.compute` (`src/js/avatar.js:579-637`). -/
noncomputable def compute (threat : Option ThreatRes) (deception : Option DeceptionRes)
    (neuro : Option NeuroRes) (vsa : Option VsaRes) : Profile :=
  let params := computeParams threat deception neuro
  let gazeStability := gazeStabilityOf neuro
  { params := params,
    voiceStress := clamp (jsOr (vsa.bind (·.voiceStressScore)) 0),
    deceptionProb := clamp (jsOr (dfield deception (·.deceptionProbability)) 0),
    conditions := ((neuro.bind (·.conditions)).getD []),
    microExpressions := ((deception.bind (·.microExpressions)).getD []),
    deceptionTimeline := ((deception.bind (·.deceptionTimeline)).getD []),
    emotionalVariation := computeEmotionalVariation params,
    vitalityIndex := computeVitality params.energy params.stress params.neuroticism,
    concentrationIndex := computeConcentration gazeStability params.inhibition params.stress,
    stateOfMind := classifyStateOfMind params }

/-- The threat snapshot of the spec's worked example (§8):
metrics `{aggression: 80, stress: 70, tension: 60, badIntent: 50,
stability: 20}`. -/
def threatExample : ThreatRes :=
  { metrics := some { aggression := some 80, stress := some 70,
                      tension := some 60, badIntent := some 50,
                      stability := some 20 } }

/-- Reference definition following the spec's words (§4.3 `dominantState`):
candidates `{high-stress: stress, high-tension: tension, high-aggression:
aggression, low-energy: 100−energy, low-balance: 100−balance}`; pick the
maximum with ties broken by the fixed priority order stress > tension >
aggression > low-energy > low-balance; return `"balanced"` when the
maximum is below 40. Stated as: the first candidate in priority order that
is `≥` every later candidate is the winner. To be compared against
`getDominantState`, which is translated from the source. -/
def specDominantState (p : Params) : String :=
  let s1 := p.stress
  let s2 := p.tension
  let s3 := p.aggression
  let s4 := 100 - p.energy
  let s5 := 100 - p.balance
  if s1 < 40 ∧ s2 < 40 ∧ s3 < 40 ∧ s4 < 40 ∧ s5 < 40 then "balanced"
  else if s2 ≤ s1 ∧ s3 ≤ s1 ∧ s4 ≤ s1 ∧ s5 ≤ s1 then "high-stress"
  else if s3 ≤ s2 ∧ s4 ≤ s2 ∧ s5 ≤ s2 then "high-tension"
  else if s4 ≤ s3 ∧ s5 ≤ s3 then "high-aggression"
  else if s5 ≤ s4 then "low-energy"
  else "low-balance"

/-! ## Streaming inference client (`OllamaClient.chat`, `src/js/ollama.js:72-97`)

The response byte stream is modelled as a list of chunks of characters
(what `decoder.decode(value, {stream:true})` appends to the buffer). Each
complete line is parsed by a model of the ECMAScript builtin `JSON.parse`.
-/

/-- A JSON value as produced by `JSON.parse`. Object fields are kept in
source order; property lookup takes the last occurrence of a duplicated
key, as `JSON.parse` does. -/
inductive JsonVal where
  | null : JsonVal
  | bool (b : Bool) : JsonVal
  | num (q : ℚ) : JsonVal
  | str (s : List Char) : JsonVal
  | arr (xs : List JsonVal) : JsonVal
  | obj (fields : List (List Char × JsonVal)) : JsonVal

/-- JSON whitespace (`ws` in the JSON grammar). -/
def jsonWs (c : Char) : Bool :=
  c = ' ' || c = '\t' || c = '\n' || c = '\r'

/-- Drop leading JSON whitespace. -/
def skipWs : List Char → List Char
  | [] => []
  | c :: r => if jsonWs c then skipWs r else c :: r

/-- Decimal digits as characters. -/
def isDigitC (c : Char) : Bool := '0' ≤ c && c ≤ '9'

/-- Split off a maximal run of decimal digits. -/
def takeDigits : List Char → List Char × List Char
  | [] => ([], [])
  | c :: r =>
    if isDigitC c then
      let (ds, rest) := takeDigits r
      (c :: ds, rest)
    else ([], c :: r)

/-- Numeric value of a digit run. -/
def digitsVal (ds : List Char) : ℕ :=
  ds.foldl (fun acc c => acc * 10 + (c.toNat - 48)) 0

/-- Hex digit value, if any. -/
def hexVal (c : Char) : Option ℕ :=
  if isDigitC c then some (c.toNat - 48)
  else if 'a' ≤ c && c ≤ 'f' then some (c.toNat - 87)
  else if 'A' ≤ c && c ≤ 'F' then some (c.toNat - 55)
  else none

/-- Parse the body of a JSON string after the opening quote; returns the
decoded content and the remaining input. Control characters below `U+0020`
are rejected, escapes are decoded, as in `JSON.parse`. -/
def parseStrBody : ℕ → List Char → Option (List Char × List Char)
  | 0, _ => none
  | _, [] => none
  | fuel + 1, c :: r =>
    if c = '"' then some ([], r)
    else if c = '\\' then
      match r with
      | [] => none
      | e :: r' =>
        let dec : Option (Char × List Char) :=
          if e = '"' then some ('"', r')
          else if e = '\\' then some ('\\', r')
          else if e = '/' then some ('/', r')
          else if e = 'b' then some ('\x08', r')
          else if e = 'f' then some ('\x0c', r')
          else if e = 'n' then some ('\n', r')
          else if e = 'r' then some ('\r', r')
          else if e = 't' then some ('\t', r')
          else if e = 'u' then
            match r' with
            | h1 :: h2 :: h3 :: h4 :: r'' =>
              match hexVal h1, hexVal h2, hexVal h3, hexVal h4 with
              | some a, some b, some c', some d =>
                some (Char.ofNat (((a * 16 + b) * 16 + c') * 16 + d), r'')
              | _, _, _, _ => none
            | _ => none
          else none
        match dec with
        | none => none
        | some (ch, rest) =>
          match parseStrBody fuel rest with
          | none => none
          | some (s, rest') => some (ch :: s, rest')
    else if c.toNat < 32 then none
    else
      match parseStrBody fuel r with
      | none => none
      | some (s, rest) => some (c :: s, rest)

/-- Parse a JSON number (`-? int frac? exp?`) into an exact rational. -/
def parseNumber (l : List Char) : Option (JsonVal × List Char) :=
  let (neg, l1) : Bool × List Char :=
    match l with
    | '-' :: r => (true, r)
    | _ => (false, l)
  let intPart : Option (ℕ × List Char) :=
    match l1 with
    | '0' :: r => some (0, r)
    | c :: _ =>
      if isDigitC c ∧ c ≠ '0' then
        let (ds, rest) := takeDigits l1
        some (digitsVal ds, rest)
      else none
    | [] => none
  match intPart with
  | none => none
  | some (ip, r2) =>
    let fracPart : Option (ℚ × List Char) :=
      match r2 with
      | '.' :: r3 =>
        let (ds, rest) := takeDigits r3
        if ds.isEmpty then none
        else some ((digitsVal ds : ℚ) / (10 : ℚ) ^ ds.length, rest)
      | _ => some (0, r2)
    match fracPart with
    | none => none
    | some (fp, r4) =>
      let expPart : Option (ℤ × List Char) :=
        match r4 with
        | 'e' :: r5 | 'E' :: r5 =>
          let (esign, r6) : Bool × List Char :=
            match r5 with
            | '+' :: r7 => (false, r7)
            | '-' :: r7 => (true, r7)
            | _ => (false, r5)
          let (ds, rest) := takeDigits r6
          if ds.isEmpty then none
          else some (if esign then -(digitsVal ds : ℤ) else (digitsVal ds : ℤ), rest)
        | _ => some (0, r4)
      match expPart with
      | none => none
      | some (ep, r8) =>
        let mag : ℚ := ((ip : ℚ) + fp) * (10 : ℚ) ^ ep
        some (.num (if neg then -mag else mag), r8)

mutual

/-- Parse one JSON value (leading whitespace already skipped). The fuel is
an upper bound on recursion depth; `jsonParse` supplies enough for any
input. -/
def parseValue : ℕ → List Char → Option (JsonVal × List Char)
  | 0, _ => none
  | _ + 1, [] => none
  | fuel + 1, c :: r =>
    if c = 'n' then
      match r with
      | 'u' :: 'l' :: 'l' :: r' => some (.null, r')
      | _ => none
    else if c = 't' then
      match r with
      | 'r' :: 'u' :: 'e' :: r' => some (.bool true, r')
      | _ => none
    else if c = 'f' then
      match r with
      | 'a' :: 'l' :: 's' :: 'e' :: r' => some (.bool false, r')
      | _ => none
    else if c = '"' then
      match parseStrBody (r.length + 1) r with
      | none => none
      | some (s, rest) => some (.str s, rest)
    else if c = '\x7b' then
      match skipWs r with
      | '\x7d' :: rest => some (.obj [], rest)
      | r1 => (parseMembers fuel r1).map fun (fs, rest) => (.obj fs, rest)
    else if c = '[' then
      match skipWs r with
      | ']' :: rest => some (.arr [], rest)
      | r1 => (parseElements fuel r1).map fun (xs, rest) => (.arr xs, rest)
    else if c = '-' || isDigitC c then parseNumber (c :: r)
    else none

/-- Parse the non-empty member list of a JSON object, consuming the
closing brace. -/
def parseMembers : ℕ → List Char → Option (List (List Char × JsonVal) × List Char)
  | 0, _ => none
  | fuel + 1, l =>
    match l with
    | '"' :: r =>
      match parseStrBody (r.length + 1) r with
      | none => none
      | some (k, r1) =>
        match skipWs r1 with
        | ':' :: r2 =>
          match parseValue fuel (skipWs r2) with
          | none => none
          | some (v, r3) =>
            match skipWs r3 with
            | ',' :: r4 =>
              (parseMembers fuel (skipWs r4)).map fun (fs, rest) => ((k, v) :: fs, rest)
            | '\x7d' :: rest => some ([(k, v)], rest)
            | _ => none
        | _ => none
    | _ => none

/-- Parse the non-empty element list of a JSON array, consuming the
closing bracket. -/
def parseElements : ℕ → List Char → Option (List JsonVal × List Char)
  | 0, _ => none
  | fuel + 1, l =>
    match parseValue fuel l with
    | none => none
    | some (v, r1) =>
      match skipWs r1 with
      | ',' :: r2 => (parseElements fuel (skipWs r2)).map fun (xs, rest) => (v :: xs, rest)
      | ']' :: rest => some ([v], rest)
      | _ => none

end

/-- Model of the ECMAScript builtin `JSON.parse` used at
`src/js/ollama.js:87`: parse one complete JSON text, requiring the whole
input to be consumed (up to trailing whitespace); `none` models a thrown
`SyntaxError`. -/
def jsonParse (l : List Char) : Option JsonVal :=
  match parseValue (l.length + 1) (skipWs l) with
  | none => none
  | some (v, rest) => if skipWs rest = [] then some v else none

/-- JS truthiness of a parsed JSON value (`undefined` is modelled as
`null`: both are falsy and neither can be yielded). -/
def truthy : JsonVal → Bool
  | .null => false
  | .bool b => b
  | .num q => if q = 0 then false else true
  | .str s => !s.isEmpty
  | .arr _ => true
  | .obj _ => true

/-- JS property access `base[k]` for a non-null base: object lookup (last
duplicate wins, as `JSON.parse` retains the last), `null` (for
`undefined`) on anything else. `null.k`, which throws, is handled at the
call site in `processLine`. -/
def getProp : JsonVal → List Char → JsonVal
  | .obj fields, k => fields.foldl (fun acc f => if f.1 = k then f.2 else acc) .null
  | _, _ => .null

/-- JS `String.prototype.trim` whitespace (the characters relevant to a
single line of the stream). -/
def jsTrimWs (c : Char) : Bool :=
  c = ' ' || c = '\t' || c = '\n' || c = '\r' || c = '\x0b' || c = '\x0c' ||
    c = ' ' || c = '﻿'

/-- Check `!line.trim()` at `src/js/ollama.js:85`: the line is whitespace-only. -/
def isBlank (l : List Char) : Bool := l.all jsTrimWs

/-- Process one complete line of the stream (the loop body at
`src/js/ollama.js:84-95`): blank lines and lines that fail `JSON.parse`
are skipped (a thrown error is caught); a parsed `null` makes
`json.message` throw a `TypeError`, also caught; otherwise the
`message.content` token is yielded when truthy, and the second component
reports a truthy `done` flag (`return`). -/
def processLine (l : List Char) : List JsonVal × Bool :=
  if isBlank l then ([], false)
  else
    match jsonParse l with
    | none => ([], false)
    | some .null => ([], false)
    | some j =>
      let msg := getProp j ("message".data)
      let toks :=
        if truthy msg then
          let c := getProp msg ("content".data)
          if truthy c then [c] else []
        else []
      (toks, truthy (getProp j ("done".data)))

/-- Process the complete lines of one decoded chunk in order, stopping at
the first line whose `done` flag is truthy (the generator `return`). -/
def processLines : List (List Char) → List JsonVal × Bool
  | [] => ([], false)
  | l :: ls =>
    if (processLine l).2 then ((processLine l).1, true)
    else ((processLine l).1 ++ (processLines ls).1, (processLines ls).2)

/-- Model of `buffer.split('\n')` followed by `buffer = lines.pop() || ''`
(`src/js/ollama.js:81-82`): the complete lines and the trailing segment
(the new buffer). -/
def splitP : List Char → List (List Char) × List Char
  | [] => ([], [])
  | c :: r =>
    if c = '\n' then ([] :: (splitP r).1, (splitP r).2)
    else
      match (splitP r).1 with
      | [] => ([], c :: (splitP r).2)
      | l :: ls' => ((c :: l) :: ls', (splitP r).2)

/-- The read loop of `OllamaClient.chat` (`src/js/ollama.js:74-96`): append
each chunk to the buffer, split off complete lines, process them, and stop
at stream end (discarding the trailing partial line) or at a truthy `done`
flag. Returns the sequence of yielded tokens. -/
def chatLoop : List (List Char) → List Char → List JsonVal
  | [], _ => []
  | chunk :: rest, buffer =>
    if (processLines (splitP (buffer ++ chunk)).1).2
    then (processLines (splitP (buffer ++ chunk)).1).1
    else (processLines (splitP (buffer ++ chunk)).1).1 ++
      chatLoop rest (splitP (buffer ++ chunk)).2

/-- The tokens yielded by `OllamaClient.chat` on a chunked response body. -/
def chatTokens (chunks : List (List Char)) : List JsonVal :=
  chatLoop chunks []

/-! ## Scan session state machine

`startScan` / `stopScan` / `completeScan` / `saveHistory` from
`src/unnamed/part_000` and `triggerScan` from `src/js/ollama.js`. Device
and UI interactions are recorded as an effect trace; the asynchronous
camera/microphone acquisitions are oracles (`camOk`, `micOk`), and the
four engine snapshot calls of the Analyzing phase are an `Except` input
(`.error` models a thrown exception). -/

/-- The `State` object (`src/unnamed/part_000:95-102`). -/
inductive AppState where
  | idle | loadingModels | ready | scanning | analyzing | results
deriving DecidableEq, Repr

/-- One persisted history entry
(`{timestamp, params, stateOfMind, dominantState}`,
`src/unnamed/part_000:319-324`). -/
structure HistoryEntry where
  timestamp : ℕ
  params : Params
  stateOfMind : StateOfMind
  dominantState : String
deriving DecidableEq, Repr

/-- The orchestrator's mutable globals relevant to the scan flow
(`src/unnamed/part_000:104-117`), plus the persisted history list
(localStorage `HISTORY_KEY`). -/
structure GState where
  appState : AppState
  modelsLoaded : Bool
  isScanning : Bool
  frameCount : ℕ
  scanTimer : Bool
  cameraOn : Bool
  micOn : Bool
  scanHistory : List HistoryEntry
  persisted : List HistoryEntry
deriving DecidableEq, Repr

/-- Observable device and UI effects of the scan flow. -/
inductive Effect where
  | acquireCamera | acquireMic | releaseCamera | releaseMic
  | toastError | toastSuccess | chatBubble
deriving DecidableEq, Repr

/-- The globals at startup: state `IDLE`, nothing loaded, empty history. -/
def initialState : GState :=
  { appState := .idle, modelsLoaded := false, isScanning := false,
    frameCount := 0, scanTimer := false, cameraOn := false, micOn := false,
    scanHistory := [], persisted := [] }

/-- Model of `saveHistory` (`src/unnamed/part_000:52-54`): persist
`scanHistory.slice(0, 10)`. -/
def saveHistory (s : GState) : GState :=
  { s with persisted := s.scanHistory.take 10 }

/-- Model of `stopScan` (`src/unnamed/part_000:285-294`): clear the scanning flag
and timer, return to `READY`, release camera and microphone. -/
def stopScan (s : GState) : GState × List Effect :=
  ({ s with
      isScanning := false, scanTimer := false, appState := .ready,
      cameraOn := false, micOn := false },
    [.releaseCamera, .releaseMic])

/-- Model of `startScan` (`src/unnamed/part_000:244-283`). While `SCANNING` it calls
`stopScan()` and returns (a toggle). Otherwise it attempts the camera
(mandatory; failure aborts with a toast from `startCamera`), attempts the
microphone (optional), resets the engines and enters `SCANNING` with
`frameCount = 0` and a fresh countdown. -/
def startScan (camOk micOk : Bool) (s : GState) : GState × List Effect :=
  if s.appState = .scanning then stopScan s
  else if camOk = false then (s, [.acquireCamera, .toastError])
  else
    let s1 := { s with cameraOn := true }
    let s2 := if micOk then { s1 with micOn := true } else s1
    ({ s2 with
        appState := .scanning, isScanning := true, frameCount := 0,
        scanTimer := true },
      [.acquireCamera, .acquireMic])

/-- Model of `triggerScan` (`src/js/ollama.js:518-571`): a start request while
`isScanning` returns immediately; then the models-loaded guard, camera
(mandatory, failure adds a chat bubble), microphone (optional), engine
reset, and the scanning flags. -/
def triggerScan (camOk micOk : Bool) (s : GState) : GState × List Effect :=
  if s.isScanning then (s, [])
  else if s.modelsLoaded = false then (s, [.toastError])
  else if camOk = false then (s, [.acquireCamera, .toastError, .chatBubble])
  else
    let s1 := { s with cameraOn := true }
    let s2 := if micOk then { s1 with micOn := true } else s1
    ({ s2 with
        isScanning := true, frameCount := 0, scanTimer := true },
      [.acquireCamera, .acquireMic])

/-- The four engine snapshots queried during the Analyzing phase
(`src/unnamed/part_000:306-313`). -/
structure ScanAnalysis where
  threat : Option ThreatRes
  deception : Option DeceptionRes
  neuro : Option NeuroRes
  vsa : Option VsaRes

/-- The history entry appended for a successful analysis
(`src/unnamed/part_000:319-324`): params, state of mind and dominant state
of the fused profile, with the completion timestamp. -/
def entryOf (now : ℕ) (a : ScanAnalysis) : HistoryEntry :=
  { timestamp := now,
    params := computeParams a.threat a.deception a.neuro,
    stateOfMind := classifyStateOfMind (computeParams a.threat a.deception a.neuro),
    dominantState := getDominantState (computeParams a.threat a.deception a.neuro) }

/-- Model of `completeScan` (`src/unnamed/part_000:296-346`): leave `SCANNING`,
enter `ANALYZING`; on successful engine snapshots run the fusion, prepend
the profile entry to the history, persist, and enter `RESULTS` with a
success toast; on a thrown error show an error toast and return to
`READY`. Devices are released on both paths. -/
def completeScan (engines : Except Unit ScanAnalysis) (now : ℕ) (s : GState) :
    GState × List Effect :=
  let s0 := { s with
                isScanning := false, scanTimer := false,
                appState := AppState.analyzing }
  match engines with
  | .error _ =>
    ({ s0 with
        appState := .ready, cameraOn := false, micOn := false },
      [.toastError, .releaseCamera, .releaseMic])
  | .ok a =>
    let s1 := { s0 with scanHistory := entryOf now a :: s0.scanHistory }
    let s2 := saveHistory s1
    ({ s2 with
        appState := .results, cameraOn := false, micOn := false },
      [.toastSuccess, .releaseCamera, .releaseMic])

/-- Fold a sequence of successfully completed scans (each a completion
time and the four snapshots) through `completeScan`. -/
def runCompletedScans (inputs : List (ℕ × ScanAnalysis)) (s : GState) : GState :=
  inputs.foldl (fun st inp => (completeScan (.ok inp.2) inp.1 st).1) s

/-- A concrete in-progress scan state. -/
def scanningState : GState :=
  { appState := .scanning, modelsLoaded := true, isScanning := true,
    frameCount := 5, scanTimer := true, cameraOn := true, micOn := true,
    scanHistory := [], persisted := [] }

/-- The output of `AlphaEye.clamp` always lands in `[0, 100]`. -/
theorem clamp_bounds (q : ℚ) : 0 ≤ clamp q ∧ clamp q ≤ 100 :=
  ⟨le_max_left _ _, max_le (by norm_num) (min_le_left _ _)⟩

/-- The logistic squash in `AlphaEye.computeVitality` keeps the vitality
index inside `[-100, 100]` for all integer inputs. -/
theorem computeVitality_bounds (e s n : ℤ) :
    -100 ≤ computeVitality e s n ∧ computeVitality e s n ≤ 100 := by
  simp only [computeVitality]
  set raw : ℚ := (e : ℚ) - ((s : ℚ) * 0.4 + (n : ℚ) * 0.3) with hraw
  set ex : ℝ := Real.exp (-(raw : ℝ) / 20) with hex
  have hexpos : 0 < ex := Real.exp_pos _
  have hden : (0 : ℝ) < 1 + ex := by linarith
  have h1 : 0 < 2 / (1 + ex) := by positivity
  have h2 : 2 / (1 + ex) < 2 := by
    rw [div_lt_iff₀ hden]; nlinarith
  constructor
  · rw [round_eq, Int.le_floor]
    push_cast
    nlinarith
  · rw [round_eq]
    have h3 : ((2 / (1 + ex) - 1) * 100 + 1 / 2 : ℝ) < ((101 : ℤ) : ℝ) := by
      push_cast; nlinarith
    have h4 := Int.floor_lt.mpr h3
    omega

/-- The head of a stable descending insertion: the inserted element wins
exactly when its score is `≥` the previous head's score. -/
theorem insertDesc_headq (a : StateCand) (l : List StateCand) :
    (insertDesc a l).head? =
      some (l.head?.elim a fun b => if a.score ≥ b.score then a else b) := by
  cases l with
  | nil => rfl
  | cons b t => by_cases h : a.score ≥ b.score <;> simp [insertDesc, h]

/-- C1: For every set of four engine snapshots (each snapshot possibly null
and each numeric field possibly absent), the profile returned by
`AlphaEye.compute` has all ten primary parameters (aggression, stress,
tension, suspect, balance, charm, energy, selfRegulation, inhibition,
neuroticism) in `[0,100]`, `vitalityIndex` in `[-100,100]`, and
`concentrationIndex` in `[0,100]`. -/
theorem C1_profile_bounds (threat : Option ThreatRes) (deception : Option DeceptionRes)
    (neuro : Option NeuroRes) (vsa : Option VsaRes) :
    let prof := compute threat deception neuro vsa
    (0 ≤ prof.params.aggression ∧ prof.params.aggression ≤ 100) ∧
    (0 ≤ prof.params.stress ∧ prof.params.stress ≤ 100) ∧
    (0 ≤ prof.params.tension ∧ prof.params.tension ≤ 100) ∧
    (0 ≤ prof.params.suspect ∧ prof.params.suspect ≤ 100) ∧
    (0 ≤ prof.params.balance ∧ prof.params.balance ≤ 100) ∧
    (0 ≤ prof.params.charm ∧ prof.params.charm ≤ 100) ∧
    (0 ≤ prof.params.energy ∧ prof.params.energy ≤ 100) ∧
    (0 ≤ prof.params.selfRegulation ∧ prof.params.selfRegulation ≤ 100) ∧
    (0 ≤ prof.params.inhibition ∧ prof.params.inhibition ≤ 100) ∧
    (0 ≤ prof.params.neuroticism ∧ prof.params.neuroticism ≤ 100) ∧
    (-100 ≤ prof.vitalityIndex ∧ prof.vitalityIndex ≤ 100) ∧
    (0 ≤ prof.concentrationIndex ∧ prof.concentrationIndex ≤ 100) := by
  intro prof
  refine ⟨clamp_bounds _, clamp_bounds _, clamp_bounds _, clamp_bounds _,
    clamp_bounds _, clamp_bounds _, clamp_bounds _, clamp_bounds _,
    clamp_bounds _, clamp_bounds _, computeVitality_bounds _ _ _, clamp_bounds _⟩

set_option maxHeartbeats 1600000 in
/-- C2: For every params object with numeric stress, tension, aggression,
energy and balance in `[0,100]`, `getDominantState` returns `"balanced"`
exactly when all five candidate scores (stress, tension, aggression,
`100−energy`, `100−balance`) are below 40; otherwise it returns the key of
the maximal candidate, with ties broken by the fixed priority order
stress > tension > aggression > low-energy > low-balance (the reference
behaviour is `specDominantState`). -/
theorem C2_dominant_state (p : Params)
    (hst : 0 ≤ p.stress ∧ p.stress ≤ 100) (hte : 0 ≤ p.tension ∧ p.tension ≤ 100)
    (hag : 0 ≤ p.aggression ∧ p.aggression ≤ 100)
    (hen : 0 ≤ p.energy ∧ p.energy ≤ 100) (hba : 0 ≤ p.balance ∧ p.balance ≤ 100) :
    getDominantState p = specDominantState p := by
  unfold getDominantState
  simp only [sortDesc, insertDesc_headq, List.head?_nil, Option.elim_none,
    Option.elim_some]
  simp only [apply_ite StateCand.score]
  simp only [specDominantState]
  split_ifs <;> first | rfl | omega

/-- Witness for C2 at a concrete in-range params object. -/
theorem C2_dominant_state_witness :
    getDominantState ⟨30, 25, 20, 25, 60, 62, 50, 61, 40, 20⟩ =
      specDominantState ⟨30, 25, 20, 25, 60, 62, 50, 61, 40, 20⟩ :=
  C2_dominant_state _ (by decide) (by decide) (by decide) (by decide) (by decide)

/-- With every snapshot field absent, the ten primary parameters take their
documented defaults (charm, selfRegulation and inhibition are the blends of
defaults). -/
theorem computeParams_default :
    computeParams none none none = ⟨30, 25, 20, 25, 60, 62, 50, 61, 40, 20⟩ := by
  simp only [computeParams, aggressionOf, stressOf, tensionOf, suspectOf, balanceOf,
    charmOf, energyOf, selfRegulationOf, gazeStabilityOf, inhibitionOf, neuroticismOf,
    truthfulnessOf, expressionRangeOf, mfield, bfield, dfield, jsOr, clamp,
    Option.none_bind, Option.bind_none]
  norm_num [min_def, max_def, Params.mk.injEq]

/-- The primary parameters on the spec's worked threat example, all other
snapshots absent. -/
theorem computeParams_threatExample :
    computeParams (some threatExample) none none =
      ⟨80, 70, 60, 50, 20, 62, 50, 41, 40, 20⟩ := by
  simp only [threatExample, computeParams, aggressionOf, stressOf, tensionOf,
    suspectOf, balanceOf, charmOf, energyOf, selfRegulationOf, gazeStabilityOf,
    inhibitionOf, neuroticismOf, truthfulnessOf, expressionRangeOf, mfield, bfield,
    dfield, jsOr, clamp, Option.none_bind, Option.bind_none, Option.some_bind]
  norm_num [min_def, max_def, Params.mk.injEq]

/-- C3 counterexample: with every snapshot field absent (all documented
defaults), `getDominantState` returns `"low-energy"` — the candidate
`100 − energy = 50` reaches the threshold — and not `"balanced"` as the
claim states. -/
theorem C3_counterexample :
    getDominantState (compute none none none none).params = "low-energy" ∧
    getDominantState (compute none none none none).params ≠ "balanced" := by
  rw [show (compute none none none none).params = computeParams none none none from rfl,
    computeParams_default]
  exact ⟨by decide, by decide⟩

/-- C3 (amended): when every snapshot field is absent so all primary
parameters take their documented defaults, the computed profile has
`stateOfMind.quadrant = "Calm & Content"`, but the dominant state is
`"low-energy"` (candidate `100 − energy = 50 ≥ 40`), not `"balanced"`. -/
theorem C3_default_profile :
    (compute none none none none).stateOfMind.quadrant = "Calm & Content" ∧
    getDominantState (compute none none none none).params = "low-energy" := by
  constructor
  · rw [show (compute none none none none).stateOfMind
        = classifyStateOfMind (computeParams none none none) from rfl,
      computeParams_default]
    simp only [classifyStateOfMind]
    norm_num [round_eq]
  · rw [show (compute none none none none).params = computeParams none none none from rfl,
      computeParams_default]
    decide

/-- C4 counterexample: on the spec's worked threat example the dominant
state is `"high-aggression"` (aggression 80 ties with `100 − balance = 80`
and wins by priority), not `"high-stress"` as the claim states. -/
theorem C4_counterexample :
    getDominantState (compute (some threatExample) none none none).params =
      "high-aggression" ∧
    getDominantState (compute (some threatExample) none none none).params ≠
      "high-stress" := by
  rw [show (compute (some threatExample) none none none).params
      = computeParams (some threatExample) none none from rfl,
    computeParams_threatExample]
  exact ⟨by decide, by decide⟩

/-- C4 (amended): for the spec's worked threat example (all other snapshots
absent), `balance = 20` and `emotionalVariation.label = "Unstable"` hold as
claimed, but `getDominantState` returns `"high-aggression"`, not
`"high-stress"`. -/
theorem C4_threat_example_profile :
    (compute (some threatExample) none none none).params.balance = 20 ∧
    (compute (some threatExample) none none none).emotionalVariation.label =
      "Unstable" ∧
    getDominantState (compute (some threatExample) none none none).params =
      "high-aggression" := by
  refine ⟨?_, ?_, ?_⟩
  · rw [show (compute (some threatExample) none none none).params
        = computeParams (some threatExample) none none from rfl,
      computeParams_threatExample]
  · rw [show (compute (some threatExample) none none none).emotionalVariation
        = computeEmotionalVariation (computeParams (some threatExample) none none)
        from rfl]
    rw [show computeParams (some threatExample) none none
        = ⟨80, 70, 60, 50, 20, 62, 50, 41, 40, 20⟩ from computeParams_threatExample]
    simp only [computeEmotionalVariation, List.map_cons, List.map_nil, List.sum_cons,
      List.sum_nil, List.length_cons, List.length_nil]
    norm_num
    intro hle
    have h4 : Real.sqrt 4 = 2 := by
      rw [show (4:ℝ) = 2^2 by norm_num, Real.sqrt_sq (by norm_num : (0:ℝ) ≤ 2)]
    have hs : Real.sqrt 2075 ≥ 45.5 := by
      nlinarith [Real.sq_sqrt (show (0:ℝ) ≤ 2075 by norm_num),
        Real.sqrt_nonneg (2075:ℝ)]
    have h31 : (31:ℤ) ≤ round (Real.sqrt 2075 / Real.sqrt 4 * 2) := by
      rw [round_eq, Int.le_floor, h4]
      push_cast
      nlinarith
    omega
  · rw [show (compute (some threatExample) none none none).params
        = computeParams (some threatExample) none none from rfl,
      computeParams_threatExample]
    decide

/-- C5 counterexample: the aggression field present with the in-range
numeric value `0` yields the default 30 — not `clamp 0 = 0` — because the
JS `||` fallback treats the number `0` as falsy. -/
theorem C5_counterexample :
    aggressionOf (some { metrics := some { aggression := some 0 } }) = 30 ∧
    clamp 0 = 0 ∧ (30 : ℤ) ≠ clamp 0 := by
  have h0 : clamp 0 = 0 := by
    simp only [clamp]; norm_num [min_def, max_def]
  refine ⟨?_, h0, by rw [h0]; decide⟩
  simp only [aggressionOf, mfield, jsOr, Option.some_bind, clamp]
  norm_num [min_def, max_def]

/-- C5 (amended): for each directly-read primary parameter, the documented
numeric default is applied exactly when the named snapshot field is absent
*or when its value is the falsy number 0*; for any nonzero numeric value
the parameter equals that value rounded and clamped to `[0,100]`. -/
theorem C5_field_defaults (t : Option ThreatRes) (n : Option NeuroRes) (v : ℚ)
    (hv : v ≠ 0) :
    (mfield t (·.aggression) = some v → aggressionOf t = clamp v) ∧
    (mfield t (·.aggression) = none → aggressionOf t = 30) ∧
    (mfield t (·.aggression) = some 0 → aggressionOf t = 30) ∧
    (mfield t (·.stress) = some v → stressOf t = clamp v) ∧
    (mfield t (·.stress) = none → stressOf t = 25) ∧
    (mfield t (·.stress) = some 0 → stressOf t = 25) ∧
    (mfield t (·.tension) = some v → tensionOf t = clamp v) ∧
    (mfield t (·.tension) = none → tensionOf t = 20) ∧
    (mfield t (·.tension) = some 0 → tensionOf t = 20) ∧
    (mfield t (·.badIntent) = some v → suspectOf t = clamp v) ∧
    (mfield t (·.badIntent) = none → suspectOf t = 25) ∧
    (mfield t (·.badIntent) = some 0 → suspectOf t = 25) ∧
    (mfield t (·.stability) = some v → balanceOf t = clamp v) ∧
    (mfield t (·.stability) = none → balanceOf t = 60) ∧
    (mfield t (·.stability) = some 0 → balanceOf t = 60) ∧
    (bfield n (·.psychomotorIndex) = some v → energyOf n = clamp v) ∧
    (bfield n (·.psychomotorIndex) = none → energyOf n = 50) ∧
    (bfield n (·.psychomotorIndex) = some 0 → energyOf n = 50) ∧
    (bfield n (·.microTremorScore) = some v → neuroticismOf n = clamp v) ∧
    (bfield n (·.microTremorScore) = none → neuroticismOf n = 20) ∧
    (bfield n (·.microTremorScore) = some 0 → neuroticismOf n = 20) := by
  refine ⟨?_, ?_, ?_, ?_, ?_, ?_, ?_, ?_, ?_, ?_, ?_, ?_, ?_, ?_, ?_, ?_, ?_, ?_,
    ?_, ?_, ?_⟩ <;>
    intro h <;>
    simp only [aggressionOf, stressOf, tensionOf, suspectOf, balanceOf, energyOf,
      neuroticismOf, h, jsOr, hv, if_false] <;>
    norm_num [clamp, min_def, max_def]

/-- Witness for C5 at a concrete nonzero field value. -/
theorem C5_field_defaults_witness :
    aggressionOf (some { metrics := some { aggression := some 37 } }) = clamp 37 :=
  (C5_field_defaults _ none 37 (by norm_num)).1 rfl

/-- Splitting a concatenation: the complete lines are those of the first
part followed by those of the first part's trailing buffer prepended to
the second part. -/
theorem splitP_append (x y : List Char) :
    splitP (x ++ y) = ((splitP x).1 ++ (splitP ((splitP x).2 ++ y)).1,
      (splitP ((splitP x).2 ++ y)).2) := by
  induction x with
  | nil => simp [splitP]
  | cons c r ih =>
    by_cases hc : c = '\n'
    · subst hc
      simp [splitP, ih]
    · cases h1 : (splitP r).1 with
      | nil =>
        cases h2 : (splitP ((splitP r).2 ++ y)).1 with
        | nil => simp [splitP, ih, hc, h1, h2]
        | cons a as => simp [splitP, ih, hc, h1, h2]
      | cons a as => simp [splitP, ih, hc, h1]

/-- The trailing buffer produced by a split never contains a newline. -/
theorem splitP_snd_no_newline (s : List Char) : '\n' ∉ (splitP s).2 := by
  induction s with
  | nil => simp [splitP]
  | cons c r ih =>
    by_cases hc : c = '\n'
    · simp [splitP, hc, ih]
    · cases h1 : (splitP r).1 with
      | nil =>
        simp [splitP, hc, h1]
        exact ⟨fun h => hc h.symm, ih⟩
      | cons a as => simp [splitP, hc, h1, ih]

/-- A newline-free string splits into no complete lines and itself as
buffer. -/
theorem splitP_no_newline (s : List Char) (h : '\n' ∉ s) : splitP s = ([], s) := by
  induction s with
  | nil => rfl
  | cons c r ih =>
    have hc : ¬ c = '\n' := fun hcc => h (hcc ▸ List.mem_cons_self c r)
    have hr : '\n' ∉ r := fun hm => h (List.mem_cons_of_mem c hm)
    simp [splitP, hc, ih hr]

/-- Early-exit processing of concatenated line lists. -/
theorem processLines_append (xs ys : List (List Char)) :
    processLines (xs ++ ys) =
      if (processLines xs).2 then processLines xs
      else ((processLines xs).1 ++ (processLines ys).1, (processLines ys).2) := by
  induction xs with
  | nil => simp [processLines]
  | cons l ls ih =>
    by_cases h : (processLine l).2
    · simp [processLines, h]
    · by_cases h2 : (processLines ls).2 <;>
        simp [processLines, h, ih, h2, List.append_assoc]

/-- Two adjacent chunks produce the same tokens as their concatenation. -/
theorem chatLoop_merge (a b : List Char) (rest : List (List Char)) (buf : List Char) :
    chatLoop ((a ++ b) :: rest) buf = chatLoop (a :: b :: rest) buf := by
  simp only [chatLoop]
  rw [show buf ++ (a ++ b) = (buf ++ a) ++ b from (List.append_assoc buf a b).symm,
    splitP_append, processLines_append]
  by_cases h1 : (processLines (splitP (buf ++ a)).1).2
  · simp [h1]
  · by_cases h2 : (processLines (splitP ((splitP (buf ++ a)).2 ++ b)).1).2 <;>
      simp [h1, h2, List.append_assoc]

/-- A chunk list collapses to the single chunk holding its whole text. -/
theorem chatLoop_join (cs : List (List Char)) :
    ∀ (c buf : List Char), chatLoop (c :: cs) buf = chatLoop [c ++ cs.flatten] buf := by
  induction cs with
  | nil => intro c buf; simp
  | cons c2 rest ih =>
    intro c buf
    calc chatLoop (c :: c2 :: rest) buf
        = chatLoop ((c ++ c2) :: rest) buf := (chatLoop_merge c c2 rest buf).symm
      _ = chatLoop [(c ++ c2) ++ rest.flatten] buf := ih (c ++ c2) buf
      _ = chatLoop [c ++ (c2 :: rest).flatten] buf := by
          simp [List.flatten, List.append_assoc]

/-- C6: For every response byte stream consumed by `OllamaClient.chat`,
splitting the stream into chunks at any boundaries (including mid-line,
mid-object) yields exactly the same sequence of emitted tokens as the
unsplit stream; in particular the two chunks `{"message":{"content":"Hi`
and `"}}\n{"done":true}\n` yield exactly one token `"Hi"` followed by end
of stream. -/
theorem C6_chunking_invariance :
    (∀ chunks : List (List Char), chatTokens chunks = chatTokens [chunks.flatten]) ∧
    chatTokens ["\x7b\"message\":\x7b\"content\":\"Hi".data,
      "\"\x7d\x7d\n\x7b\"done\":true\x7d\n".data] = [.str ("Hi".data)] := by
  constructor
  · intro chunks
    cases chunks with
    | nil => rfl
    | cons c cs => exact chatLoop_join cs c []
  · rfl

/-- Discarding a trailing newline-free chunk does not change the tokens:
whatever it contributes stays in the buffer and is never emitted. -/
theorem chatLoop_trailing (t : List Char) (ht : '\n' ∉ t) :
    ∀ (chunks : List (List Char)) (buf : List Char), '\n' ∉ buf →
      chatLoop (chunks ++ [t]) buf = chatLoop chunks buf := by
  intro chunks
  induction chunks with
  | nil =>
    intro buf hb
    have hbt : '\n' ∉ buf ++ t := by
      simp only [List.mem_append]
      exact fun h => h.elim hb ht
    simp [chatLoop, splitP_no_newline _ hbt, processLines]
  | cons c cs ih =>
    intro buf hb
    simp only [List.cons_append, chatLoop]
    by_cases hd : (processLines (splitP (buf ++ c)).1).2
    · simp [hd]
    · simp [hd, ih _ (splitP_snd_no_newline _)]

/-- C7: In `OllamaClient.chat`, a complete line that fails to parse is
skipped and the stream continues; a parsed record whose `done` flag is
truthy ends the token sequence immediately; and any trailing partial line
left in the buffer when the transport ends is discarded without being
emitted. -/
theorem C7_error_handling :
    (∀ (l : List Char) (ls : List (List Char)), jsonParse l = none →
      processLine l = ([], false) ∧ processLines (l :: ls) = processLines ls) ∧
    (∀ (l : List Char) (ls : List (List Char)) (j : JsonVal),
      isBlank l = false → jsonParse l = some j →
      truthy (getProp j ("done".data)) = true →
      processLines (l :: ls) = ((processLine l).1, true)) ∧
    (∀ (chunks : List (List Char)) (t : List Char), '\n' ∉ t →
      chatTokens (chunks ++ [t]) = chatTokens chunks) := by
  refine ⟨?_, ?_, ?_⟩
  · intro l ls h
    have hp : processLine l = ([], false) := by
      by_cases hb : isBlank l <;> simp [processLine, hb, h]
    constructor
    · exact hp
    · simp [processLines, hp]
  · intro l ls j hb h hd
    have hp : (processLine l).2 = true := by
      cases j with
      | null =>
        exact absurd hd (by simp [getProp, truthy])
      | _ => simp [processLine, hb, h, hd]
    simp [processLines, hp]
  · intro chunks t ht
    exact chatLoop_trailing t ht chunks [] (by simp)

/-- Witness for C7: a malformed line is skipped, a concrete `done` record
stops processing, and a concrete trailing partial chunk is discarded. -/
theorem C7_error_handling_witness :
    (processLine ("oops".data) = ([], false) ∧
      processLines ["oops".data] = processLines []) ∧
    processLines ["\x7b\"done\":true\x7d".data, "x".data] =
      ((processLine ("\x7b\"done\":true\x7d".data)).1, true) ∧
    chatTokens (["\x7b\"done\":true\x7d\n".data] ++ ["partial".data]) =
      chatTokens ["\x7b\"done\":true\x7d\n".data] :=
  ⟨C7_error_handling.1 ("oops".data) [] rfl,
    C7_error_handling.2.1 _ ["x".data] (.obj [("done".data, .bool true)]) rfl rfl rfl,
    C7_error_handling.2.2 _ ("partial".data) (by decide)⟩

/-- C8 counterexample: invoking `startScan` while the session state is
`SCANNING` is *not* a no-op — it calls `stopScan()` and returns, so the
state changes to `READY` and the scan in progress does not continue. -/
theorem C8_counterexample :
    (startScan true true scanningState).1.appState = AppState.ready ∧
    (startScan true true scanningState).1 ≠ scanningState := by
  exact ⟨rfl, by decide⟩

/-- C8 (amended): `triggerScan` while `isScanning` is a genuine no-op
(state unchanged, no effects). `startScan` while the state is `SCANNING`
instead behaves as `stopScan` (a toggle): the state returns to `READY`;
in both cases no camera or microphone acquisition occurs and `frameCount`
is unchanged. -/
theorem C8_start_while_scanning :
    (∀ (camOk micOk : Bool) (s : GState), s.isScanning = true →
      triggerScan camOk micOk s = (s, [])) ∧
    (∀ (camOk micOk : Bool) (s : GState), s.appState = AppState.scanning →
      startScan camOk micOk s = stopScan s ∧
      (startScan camOk micOk s).1.appState = AppState.ready ∧
      (startScan camOk micOk s).1.frameCount = s.frameCount ∧
      Effect.acquireCamera ∉ (startScan camOk micOk s).2 ∧
      Effect.acquireMic ∉ (startScan camOk micOk s).2) := by
  constructor
  · intro camOk micOk s h
    simp [triggerScan, h]
  · intro camOk micOk s h
    have hs : startScan camOk micOk s = stopScan s := by simp [startScan, h]
    rw [hs]
    exact ⟨rfl, rfl, rfl, by simp [stopScan], by simp [stopScan]⟩

/-- Witness for C8 on the concrete scanning state. -/
theorem C8_start_while_scanning_witness :
    triggerScan true true scanningState = (scanningState, []) ∧
    startScan true true scanningState = stopScan scanningState :=
  ⟨C8_start_while_scanning.1 true true scanningState rfl,
    (C8_start_while_scanning.2 true true scanningState rfl).1⟩

/-- C9: if the engine snapshot calls or the fusion throw during the
Analyzing phase of `completeScan`, the failure is caught, the state
machine returns to `READY`, an error toast (absent from every successful
completion, hence distinguishable) is surfaced, and both the in-memory
and the persisted scan history are left unchanged. -/
theorem C9_analysis_failure (e : Unit) (now : ℕ) (s : GState) :
    (completeScan (.error e) now s).1.appState = AppState.ready ∧
    (completeScan (.error e) now s).1.isScanning = false ∧
    (completeScan (.error e) now s).1.scanHistory = s.scanHistory ∧
    (completeScan (.error e) now s).1.persisted = s.persisted ∧
    Effect.toastError ∈ (completeScan (.error e) now s).2 ∧
    (∀ (a : ScanAnalysis) (now2 : ℕ) (s2 : GState),
      Effect.toastError ∉ (completeScan (.ok a) now2 s2).2) := by
  refine ⟨rfl, rfl, rfl, rfl, by simp [completeScan], ?_⟩
  intro a now2 s2
  simp [completeScan]

/-- The in-memory history after a run of completed scans: the new entries
prepended (newest first) to the starting history. -/
theorem runCompletedScans_history (inputs : List (ℕ × ScanAnalysis)) :
    ∀ s : GState, (runCompletedScans inputs s).scanHistory =
      (inputs.map fun i => entryOf i.1 i.2).reverse ++ s.scanHistory := by
  induction inputs with
  | nil => intro s; simp [runCompletedScans]
  | cons i is ih =>
    intro s
    have step : runCompletedScans (i :: is) s
        = runCompletedScans is ((completeScan (.ok i.2) i.1 s).1) := rfl
    have hh : ((completeScan (.ok i.2) i.1 s).1).scanHistory
        = entryOf i.1 i.2 :: s.scanHistory := rfl
    rw [step, ih, hh]
    simp [List.append_assoc]

/-- After at least one completed scan, the persisted list is the first 10
entries of the in-memory history. -/
theorem runCompletedScans_persisted (inputs : List (ℕ × ScanAnalysis)) :
    ∀ s : GState, inputs ≠ [] →
      (runCompletedScans inputs s).persisted
        = (runCompletedScans inputs s).scanHistory.take 10 := by
  induction inputs with
  | nil => intro s h; exact absurd rfl h
  | cons i is ih =>
    intro s _
    by_cases his : is = []
    · subst his; rfl
    · exact ih ((completeScan (.ok i.2) i.1 s).1) his

/-- C10: starting from an empty history, after `n` successfully completed
scans the persisted scan history holds exactly the `min n 10` newest
entries, newest first (each completion prepends its profile entry); in
particular after 11 completed scans the persisted length is 10. -/
theorem C10_history_bound (inputs : List (ℕ × ScanAnalysis)) (s : GState)
    (h1 : s.scanHistory = []) (h2 : s.persisted = []) :
    (runCompletedScans inputs s).persisted =
      ((inputs.map fun i => entryOf i.1 i.2).reverse).take 10 ∧
    (runCompletedScans inputs s).persisted.length = min inputs.length 10 := by
  have hmain : (runCompletedScans inputs s).persisted =
      ((inputs.map fun i => entryOf i.1 i.2).reverse).take 10 := by
    cases hi : inputs with
    | nil =>
      subst hi
      simpa [runCompletedScans] using h2
    | cons i is =>
      have hne : inputs ≠ [] := by simp [hi]
      rw [← hi, runCompletedScans_persisted inputs s hne,
        runCompletedScans_history inputs s, h1]
      simp
  refine ⟨hmain, ?_⟩
  rw [hmain]
  simp [List.length_take, List.length_reverse, List.length_map]
  omega

/-- Witness for C10: eleven concrete scans leave exactly ten persisted
entries. -/
theorem C10_history_bound_witness :
    (runCompletedScans
        (List.replicate 11 ((0, ⟨none, none, none, none⟩) : ℕ × ScanAnalysis))
        initialState).persisted.length = min 11 10 := by
  have h := (C10_history_bound
    (List.replicate 11 ((0, ⟨none, none, none, none⟩) : ℕ × ScanAnalysis))
    initialState rfl rfl).2
  simpa using h

end MS3
